import Mathlib

/-!
Shallow embedding of the core checker engine of `stuffer-go`
(`internal/checker/checker.go`, `pkg/httpclient/azuretls_client.go`).

Pure functions of the Go source are translated into Lean functions; the
retry loop of `checkCombo` is embedded as a trace of effect events; the
proxy-pick calls performed through the (out-of-scope) proxy manager are
abstracted as a stream of pick results, while all control flow around
those calls follows the source. Machine integers are modelled as
`Int`/`Nat` (no overflow is relevant to the properties below); Go
`float64` time quantities are modelled as `ℚ`.
-/

namespace Stuffer

/-- Bot status as used by `analyzeResponse` and result handling
(`types.BotStatusSuccess` / `types.BotStatusFail` / `types.BotStatusError`). -/
inductive BotStatus
  | success
  | fail
  | error
deriving DecidableEq, Repr

/-- Proxy scheme (`types.ProxyTypeHTTP` etc.). -/
inductive ProxyType
  | http
  | https
  | socks4
  | socks5
deriving DecidableEq, Repr

/-- A proxy as produced by `parseProxy` (fields used by the checker core). -/
structure Proxy where
  host : String
  port : Int
  type : ProxyType
  working : Bool
deriving DecidableEq, Repr

/-- A combo (`types.Combo`): credential pair with optional email. -/
structure Combo where
  line : String
  username : String
  password : String
  email : String
deriving DecidableEq, Repr

/-- A parsed config (`types.Config`), the fields read by `checker.go`. -/
structure Config where
  name : String
  method : String
  url : String
  headers : List (String × String)
  data : List (String × String)
  successStatus : List Int
  failureStatus : List Int
  successStrings : List String
  failureStrings : List String
  requiresProxy : Bool
  useProxy : Bool
deriving DecidableEq, Repr

/-- Substring test on character lists: `needle` occurs contiguously in
`hay`. Models Go `strings.Contains` (which is true for the empty needle). -/
def containsSubAux : List Char → List Char → Bool
  | _, [] => true
  | [], _ :: _ => false
  | h :: t, n :: m => (List.isPrefixOf (n :: m) (h :: t)) || containsSubAux t (n :: m)

/-- Go `strings.Contains hay sub`. -/
def goContains (hay sub : String) : Bool :=
  containsSubAux hay.toList sub.toList

/-- `analyzeResponse` from `checker.go`: status-code checks first
(success then failure), then body markers (success then failure),
defaulting to `fail`. -/
def analyzeResponse (body : String) (statusCode : Int) (config : Config) : BotStatus :=
  if config.successStatus.any (fun c => statusCode == c) then
    .success
  else if config.failureStatus.any (fun c => statusCode == c) then
    .fail
  else if config.successStrings.any (fun s => goContains body s) then
    .success
  else if config.failureStrings.any (fun s => goContains body s) then
    .fail
  else
    .fail

/-- Statistics fields touched by `updateStats` (`types.CheckerStats`). -/
structure CheckerStats where
  validCombos : Nat
  invalidCombos : Nat
  errorCombos : Nat
  currentCPM : ℚ
deriving DecidableEq, Repr

/-- `updateStats` from `checker.go`: bump the counter matching the result
status, then recompute CPM only when the elapsed time (in minutes,
`time.Since(StartTime).Minutes()`, modelled as `ℚ`) is positive. -/
def updateStats (s : CheckerStats) (status : BotStatus) (elapsedMinutes : ℚ) : CheckerStats :=
  let s1 : CheckerStats :=
    match status with
    | .success => { s with validCombos := s.validCombos + 1 }
    | .fail => { s with invalidCombos := s.invalidCombos + 1 }
    | .error => { s with errorCombos := s.errorCombos + 1 }
  if elapsedMinutes > 0 then
    { s1 with currentCPM :=
        ((s1.validCombos + s1.invalidCombos + s1.errorCombos : ℕ) : ℚ) / elapsedMinutes }
  else
    s1

/-! ### The retry loop of `checkCombo` as an event trace

`checkCombo` (checker.go) loops while `retryCount < retryLimit` where
`retryLimit = Config.RetryCount` rewritten to `3` when it is `0`. Each
iteration builds the request, logs it, executes `client.Do`, and on
success logs the response and breaks; on error it logs the failed
request, increments `retryCount` and, when attempts remain, logs a retry
warning, re-selects the proxy, and sleeps `500*retryCount` milliseconds.
The side effects are embedded as a list of events; whether the request
build and the transport attempt at index `i` succeed is abstracted as
the boolean streams `buildOk` and `attemptOk`. No call into the proxy
manager to report an attempt outcome occurs anywhere in `checkCombo`;
the event constructor `registryReport` exists so that absence is
expressible. -/

/-- One observable effect of the `checkCombo` loop. Attempt numbers are
1-based, matching `retryCount+1` passed to the logging calls. -/
inductive Event
  | buildError (attempt : Nat)
  | logDetailedRequest (attempt : Nat)
  | clientDo (attempt : Nat)
  | logDetailedResponse (attempt : Nat)
  | logNetworkRequestError (attempt : Nat)
  | logRetryWarn (attempt : Nat)
  | sleepMs (ms : Nat)
  | logNetworkRequestSuccess
  | readBody
  | analyzeResp
  | registryReport
deriving DecidableEq, Repr

/-- `retryLimit` computation at the top of `checkCombo`:
`retryLimit := c.Config.RetryCount; if retryLimit == 0 { retryLimit = 3 }`. -/
def effectiveRetryLimit (retryCount : Nat) : Nat :=
  if retryCount == 0 then 3 else retryCount

/-- The loop body of `checkCombo`, with `fuel = retryLimit - retryCount`
(so the loop guard `retryCount < retryLimit` is `fuel > 0`, and the inner
`retryCount+1 < retryLimit` check after a failure is `fuel - 1 > 0`). -/
def comboTraceAux (buildOk attemptOk : Nat → Bool) : Nat → Nat → List Event
  | _, 0 => []
  | retryCount, fuel + 1 =>
    if buildOk retryCount then
      Event.logDetailedRequest (retryCount + 1) :: Event.clientDo (retryCount + 1) ::
        (if attemptOk retryCount then
          [Event.logDetailedResponse (retryCount + 1), Event.logNetworkRequestSuccess,
           Event.readBody, Event.analyzeResp]
        else
          Event.logNetworkRequestError (retryCount + 1) ::
            (match fuel with
             | 0 => []
             | _ + 1 =>
               Event.logRetryWarn (retryCount + 1) ::
                 Event.sleepMs (500 * (retryCount + 1)) ::
                 comboTraceAux buildOk attemptOk (retryCount + 1) fuel))
    else
      [Event.buildError (retryCount + 1)]

/-- Full effect trace of one `checkCombo` call for a task whose config
has `RetryCount = configRetryCount`. -/
def comboTrace (buildOk attemptOk : Nat → Bool) (configRetryCount : Nat) : List Event :=
  comboTraceAux buildOk attemptOk 0 (effectiveRetryLimit configRetryCount)

/-- Number of transport attempts (`client.Do` executions) in a trace. -/
def attemptCount (t : List Event) : Nat :=
  t.countP fun e => match e with | .clientDo _ => true | _ => false

/-- The backoff sleeps (in milliseconds) occurring in a trace, in order. -/
def sleepsOf (t : List Event) : List Nat :=
  t.filterMap fun e => match e with | .sleepMs n => some n | _ => none

/-! ### Proxy selection (`getNextHealthyProxy`, `createTask`)

`getNextProxy` delegates to the advanced proxy manager (out of scope per
the spec); successive calls are abstracted as a stream `picks : Nat →
Option Proxy` indexed by call number. The retry loop of
`getNextHealthyProxy` and the checks of `createTask` /
`shouldSkipTaskDueToProxy` follow the source. -/

/-- The loop of `getNextHealthyProxy`: up to 5 calls looking for a
`Working` proxy, then one final unconditional call
(`return c.getNextProxy()`). `callIdx` counts calls made so far. -/
def getNextHealthyProxyAux (picks : Nat → Option Proxy) (callIdx : Nat) : Nat → Option Proxy
  | 0 => picks callIdx
  | fuel + 1 =>
    match picks callIdx with
    | some p => if p.working then some p else getNextHealthyProxyAux picks (callIdx + 1) fuel
    | none => getNextHealthyProxyAux picks (callIdx + 1) fuel

/-- `getNextHealthyProxy` from checker.go. -/
def getNextHealthyProxy (picks : Nat → Option Proxy) : Option Proxy :=
  getNextHealthyProxyAux picks 0 5

/-- `selectProxyForConfig` from checker.go. -/
def selectProxyForConfig (cfg : Config) (picks : Nat → Option Proxy) : Option Proxy :=
  if cfg.requiresProxy then getNextHealthyProxy picks
  else if cfg.useProxy then picks 0
  else none

/-- `getWorkingProxies` from checker.go. -/
def getWorkingProxies (proxies : List Proxy) : List Proxy :=
  proxies.filter (·.working)

/-- `shouldSkipTaskDueToProxy` from checker.go: a required-proxy config is
skipped when the proxy list is empty or holds no working proxy. -/
def shouldSkipTaskDueToProxy (proxies : List Proxy) (cfg : Config) : Bool :=
  cfg.requiresProxy && (proxies.isEmpty || (getWorkingProxies proxies).isEmpty)

/-- A worker task (`types.WorkerTask`). -/
structure WorkerTask where
  combo : Combo
  config : Config
  proxy : Option Proxy
deriving DecidableEq, Repr

/-- `createTask` from checker.go: `none` models the task being dropped. -/
def createTask (proxies : List Proxy) (picks : Nat → Option Proxy)
    (combo : Combo) (cfg : Config) : Option WorkerTask :=
  if shouldSkipTaskDueToProxy proxies cfg then none
  else
    let p := selectProxyForConfig cfg picks
    if cfg.requiresProxy && p.isNone then none
    else some ⟨combo, cfg, p⟩

/-- First working proxy among the five retry-loop picks, if any. -/
def firstWorkingPick (picks : Nat → Option Proxy) : Option Proxy :=
  (List.range 5).findSome? fun i =>
    match picks i with
    | some p => if p.working then some p else none
    | none => none

/-- Pick `i` calls after call `c`, filtered to working proxies (proof
device for characterizing the `getNextHealthyProxy` loop). -/
def pickFilter (picks : Nat → Option Proxy) (c : Nat) : Nat → Option Proxy :=
  fun i =>
    match picks (c + i) with
    | some p => if p.working then some p else none
    | none => none

/-! ### Timeouts (`createHTTPClient`, `createFallbackHTTPClient`,
`NewAzureTLSClient`) -/

/-- Timeout computation in `createHTTPClient`: `RequestTimeout`
milliseconds, capped at 30 000 ms. -/
def clampRequestTimeout (requestTimeoutMs : Nat) : Nat :=
  if requestTimeoutMs > 30000 then 30000 else requestTimeoutMs

/-- Session timeout applied by `NewAzureTLSClient`
(azuretls_client.go): a positive timeout is used as-is, otherwise the
30 s default is set. -/
def azureSessionTimeout (timeoutMs : Nat) : Nat :=
  if timeoutMs > 0 then timeoutMs else 30000

/-- Client-level deadline of the fallback `http.Client` built by
`createFallbackHTTPClient`: the Go `http.Client.Timeout` field is set to
the passed duration, and a zero `Timeout` means no client-level deadline
(Go stdlib semantics), modelled as `none`. -/
def fallbackClientDeadline (timeoutMs : Nat) : Option Nat :=
  if timeoutMs = 0 then none else some timeoutMs

/-! ### Request building (`buildRequest`, `buildFormData`) -/

/-- `http.Header.Set` on the request header map. Go `http.Header` is a
map; it is modelled as a function from (already-canonicalized) MIME
header names to the optional value, and `Set` replaces the entry. -/
def setHeader (headers : String → Option String) (k v : String) : String → Option String :=
  fun q => if q == k then some v else headers q

/-- The empty header map of a fresh `http.Request`. -/
def emptyHeaders : String → Option String :=
  fun _ => none

/-- UTF-8 encoding of one code point, as byte values. -/
def utf8EncodeChar (c : Nat) : List Nat :=
  if c < 128 then [c]
  else if c < 2048 then [192 + c / 64, 128 + c % 64]
  else if c < 65536 then [224 + c / 4096, 128 + (c / 64) % 64, 128 + c % 64]
  else [240 + c / 262144, 128 + (c / 4096) % 64, 128 + (c / 64) % 64, 128 + c % 64]

/-- UTF-8 bytes of a string. -/
def utf8Bytes (s : String) : List Nat :=
  (s.toList.map fun c => utf8EncodeChar c.toNat).flatten

/-- Uppercase hexadecimal digit for a value below 16. -/
def hexDigitChar (n : Nat) : Char :=
  if n < 10 then Char.ofNat (48 + n) else Char.ofNat (55 + n)

/-- Go `url.QueryEscape` byte classification: letters, digits and
`-`, `_`, `.`, `~` stay unescaped. -/
def queryUnescapedByte (b : Nat) : Bool :=
  (65 ≤ b && b ≤ 90) || (97 ≤ b && b ≤ 122) || (48 ≤ b && b ≤ 57) ||
    b == 45 || b == 95 || b == 46 || b == 126

/-- Go `url.QueryEscape` on one byte: space becomes `+`, unescaped bytes
pass through, everything else becomes `%XX` with uppercase hex. -/
def queryEscapeByte (b : Nat) : List Char :=
  if b = 32 then [Char.ofNat 43]
  else if queryUnescapedByte b then [Char.ofNat b]
  else [Char.ofNat 37, hexDigitChar (b / 16), hexDigitChar (b % 16)]

/-- Go `url.QueryEscape`. -/
def queryEscape (s : String) : String :=
  String.mk ((utf8Bytes s).map queryEscapeByte).flatten

/-- `buildFormData` from checker.go: each body field becomes
`key=QueryEscape(substituted value)`, joined with `&`. The Go map
iteration order is abstracted by treating `Data` as an ordered list;
`fmt.Sprintf("%v", value)` is modelled by taking values as strings. -/
def buildFormData (data : List (String × String)) (subst : String → String) : String :=
  String.intercalate "&" (data.map fun kv => kv.1 ++ "=" ++ queryEscape (subst kv.2))

/-- Header construction in `buildRequest`: every config header is `Set`
with substituted value, then, only when the method is `POST`,
`Content-Type` is `Set` to `application/x-www-form-urlencoded`
(unconditionally). `subst` is the variable substitution applied to
header values. -/
def buildRequestHeaders (cfg : Config) (subst : String → String) : String → Option String :=
  let base := cfg.headers.foldl (fun hs kv => setHeader hs kv.1 (subst kv.2)) emptyHeaders
  if cfg.method == "POST" then
    setHeader base "Content-Type" "application/x-www-form-urlencoded"
  else
    base

/-- Body construction in `buildRequest`: `GET` requests carry no body,
every other method gets the urlencoded form data. -/
def buildRequestBody (cfg : Config) (subst : String → String) : Option String :=
  if cfg.method == "GET" then none else some (buildFormData cfg.data subst)

/-! ### Variable substitution (`replaceVariables`)

`replaceVariables` sets the six combo keys on `c.varManipulator` — a
single `VariableManipulator` created once in `NewChecker`
(`initializeWorkflowSystem`) and shared by every worker and every
attempt — then calls `ReplaceVariables`. The manipulator's store is
modelled as an association list threaded through the call.
`VariableManipulator.SetVariable` / `ReplaceVariables` themselves are
not under `src/`. -/

/-- Modelled from the spec: `VariableManipulator.SetVariable` is not
under `src/`; the spec (§4.4) has the store as a keyed string map, so
setting assigns (replaces) the key. The store is modelled as a function
from variable names to optional values. -/
def setVariable (store : String → Option String) (k v : String) : String → Option String :=
  fun q => if q == k then some v else store q

/-- Modelled from the spec: store lookup for substitution (§4.4, rule 1,
case-sensitive). -/
def lookupVar (store : String → Option String) (k : String) : Option String :=
  store k

/-- The opening brace character. -/
def lbrace : Char := Char.ofNat 123

/-- The closing brace character. -/
def rbrace : Char := Char.ofNat 125

/-- Scan to the first closing brace: returns the name before it and the
remainder after it, or `none` when no closing brace follows. -/
def splitAtRBrace : List Char → Option (List Char × List Char)
  | [] => none
  | c :: t =>
    if c = rbrace then some ([], t)
    else
      match splitAtRBrace t with
      | some (n, r) => some (c :: n, r)
      | none => none

/-- Modelled from the spec: `VariableManipulator.ReplaceVariables` is not
under `src/`; the spec (§4.4) defines substitution as one left-to-right
pass replacing each placeholder with the store value and leaving unknown
placeholders intact. `fuel` bounds the scan by the input length. -/
def substAux (store : String → Option String) : Nat → List Char → List Char
  | 0, l => l
  | _, [] => []
  | fuel + 1, c :: t =>
    if c = lbrace then
      match splitAtRBrace t with
      | some (nameChars, rest) =>
        (match lookupVar store (String.mk nameChars) with
         | some v => v.toList ++ substAux store fuel rest
         | none => lbrace :: nameChars ++ rbrace :: substAux store fuel rest)
      | none => c :: substAux store fuel t
    else
      c :: substAux store fuel t

/-- One-pass template substitution over a string. -/
def substituteTemplate (store : String → Option String) (text : String) : String :=
  String.mk (substAux store text.toList.length text.toList)

/-- `replaceVariables` from checker.go: overwrite the six combo keys on
the shared store, then substitute. Returns the updated shared store
together with the substituted text. -/
def replaceVariables (store : String → Option String) (text : String) (combo : Combo) :
    (String → Option String) × String :=
  let s1 := setVariable store "USER" combo.username
  let s2 := setVariable s1 "PASS" combo.password
  let s3 := setVariable s2 "EMAIL" combo.email
  let s4 := setVariable s3 "username" combo.username
  let s5 := setVariable s4 "password" combo.password
  let s6 := setVariable s5 "email" combo.email
  (s6, substituteTemplate s6 text)

/-! ### Proxy file parsing (`parseProxy`, `parseInt`) -/

/-- Go `strings.Split` with a single-character separator. -/
def splitChar (sep : Char) : List Char → List (List Char)
  | [] => [[]]
  | c :: t =>
    let r := splitChar sep t
    if c = sep then [] :: r
    else
      match r with
      | [] => [[c]]
      | h :: rt => (c :: h) :: rt

/-- `strings.Split(line, ":")` as used by `parseProxy` and `parseCombo`. -/
def goSplitColon (s : String) : List String :=
  (splitChar ':' s.toList).map String.mk

/-- Digit accumulation for `strconv.Atoi`: fails on any non-digit. -/
def parseDigitsAux : List Char → Nat → Option Nat
  | [], acc => some acc
  | c :: t, acc =>
    if c.isDigit then parseDigitsAux t (acc * 10 + (c.toNat - 48)) else none

/-- Go `strconv.Atoi`: optional sign followed by one or more digits;
anything else is an error (`none`). Overflow of the machine `int` is not
modelled (the properties below never reach it). -/
def atoi? (s : String) : Option Int :=
  match s.toList with
  | [] => none
  | '-' :: rest =>
    match rest with
    | [] => none
    | _ => (parseDigitsAux rest 0).map fun n => -(n : Int)
  | '+' :: rest =>
    match rest with
    | [] => none
    | _ => (parseDigitsAux rest 0).map fun n => (n : Int)
  | l => (parseDigitsAux l 0).map fun n => (n : Int)

/-- `parseInt` from checker.go: `strconv.Atoi`, with `0` on error. -/
def parseInt (s : String) : Int :=
  (atoi? s).getD 0

/-- ASCII lowercasing of one character. Go `strings.ToLower` folds full
Unicode; the scheme literals compared in `parseProxy` are ASCII, for
which this agrees. -/
def asciiLowerChar (c : Char) : Char :=
  if 65 ≤ c.toNat && c.toNat ≤ 90 then Char.ofNat (c.toNat + 32) else c

/-- ASCII `strings.ToLower`. -/
def asciiLower (s : String) : String :=
  String.mk (s.toList.map asciiLowerChar)

/-- Scheme detection from the optional third field of a proxy line
(`parseProxy`): `socks4` / `socks5` / `https` (case-insensitive) are
recognised, anything else keeps the `http` default. -/
def proxySchemeOf (rest : List String) : ProxyType :=
  match rest with
  | [] => ProxyType.http
  | t :: _ =>
    if asciiLower t == "socks4" then ProxyType.socks4
    else if asciiLower t == "socks5" then ProxyType.socks5
    else if asciiLower t == "https" then ProxyType.https
    else ProxyType.http

/-- `parseProxy` from checker.go: split on `:`; fewer than two fields is
skipped (`nil`); otherwise host is field 0, port is `parseInt` of field
1, scheme defaults to `http`. `Working` starts at the Go zero value
`false`. -/
def parseProxy (line : String) : Option Proxy :=
  match goSplitColon line with
  | a :: b :: rest => some { host := a, port := parseInt b, type := proxySchemeOf rest, working := false }
  | _ => none

/-! ### Concrete sample values used by counterexamples and witnesses -/

/-- Config of the C1 boundary scenario: `success_statuses = {200}`,
`failure_markers = ["bad"]`. -/
def c1Config : Config :=
  { name := "c1", method := "GET", url := "http://example.test/login",
    headers := [], data := [], successStatus := [200], failureStatus := [],
    successStrings := [], failureStrings := ["bad"],
    requiresProxy := false, useProxy := false }

/-- A working proxy. -/
def proxyUp : Proxy := { host := "up.example", port := 8080, type := .http, working := true }

/-- A non-working proxy. -/
def proxyDown : Proxy := { host := "down.example", port := 8081, type := .http, working := false }

/-- A sample combo. -/
def sampleCombo : Combo := { line := "b:2", username := "b", password := "2", email := "" }

/-- A config that requires a proxy. -/
def cfgNeedsProxy : Config :=
  { name := "needs-proxy", method := "GET", url := "http://example.test/",
    headers := [], data := [], successStatus := [], failureStatus := [],
    successStrings := [], failureStrings := [],
    requiresProxy := true, useProxy := false }

/-- A `PUT` config with no configured `Content-Type` header. -/
def cfgPut : Config :=
  { name := "put", method := "PUT", url := "http://example.test/",
    headers := [("Accept", "text/html")], data := [("user", "u")],
    successStatus := [], failureStatus := [], successStrings := [],
    failureStrings := [], requiresProxy := false, useProxy := false }

/-- A variable store holding state left behind by an earlier attempt:
a captured variable `TOKEN`. -/
def tokenStore : String → Option String :=
  fun q => if q == "TOKEN" then some "x" else none

/-- A fresh, empty variable store. -/
def freshStore : String → Option String :=
  fun _ => none

/-- The proxy that `parseProxy` produces for the line
`proxy.example.com:notaport` (port field not an integer). -/
def proxyNotAPort : Proxy :=
  { host := "proxy.example.com", port := 0, type := ProxyType.http, working := false }

/-- A `POST` config that explicitly configures `Content-Type`. -/
def cfgPostJson : Config :=
  { name := "post-json", method := "POST", url := "http://example.test/",
    headers := [("Content-Type", "application/json")], data := [],
    successStatus := [], failureStatus := [], successStrings := [],
    failureStrings := [], requiresProxy := false, useProxy := false }

/-! ## Theorems -/

/-- Helper: the status-code loops of `analyzeResponse` test list
membership. -/
theorem anyIntMem (l : List Int) (x : Int) : (l.any fun c => x == c) = true ↔ x ∈ l := by
  simp [List.any_eq_true]

/-- C1 (confirmed): the classifier decides in order — success statuses,
then failure statuses, then success markers (substring of body), then
failure markers, then default-deny `fail`; and a 200 response with body
"bad" under `success_statuses = {200}`, `failure_markers = ["bad"]`
classifies as success. -/
theorem c1_analyzeResponse_order :
    (∀ (body : String) (statusCode : Int) (cfg : Config),
      analyzeResponse body statusCode cfg =
        if statusCode ∈ cfg.successStatus then BotStatus.success
        else if statusCode ∈ cfg.failureStatus then BotStatus.fail
        else if ∃ s ∈ cfg.successStrings, goContains body s = true then BotStatus.success
        else if ∃ s ∈ cfg.failureStrings, goContains body s = true then BotStatus.fail
        else BotStatus.fail)
    ∧ analyzeResponse "bad" 200 c1Config = BotStatus.success := by
  refine ⟨fun body statusCode cfg => ?_, by decide⟩
  unfold analyzeResponse
  by_cases h1 : statusCode ∈ cfg.successStatus
  · rw [if_pos ((anyIntMem _ _).2 h1), if_pos h1]
  · rw [if_neg (fun hh => h1 ((anyIntMem _ _).1 hh)), if_neg h1]
    by_cases h2 : statusCode ∈ cfg.failureStatus
    · rw [if_pos ((anyIntMem _ _).2 h2), if_pos h2]
    · rw [if_neg (fun hh => h2 ((anyIntMem _ _).1 hh)), if_neg h2]
      by_cases h3 : ∃ s ∈ cfg.successStrings, goContains body s = true
      · rw [if_pos (List.any_eq_true.2 h3), if_pos h3]
      · rw [if_neg (fun hh => h3 (List.any_eq_true.1 hh)), if_neg h3]
        by_cases h4 : ∃ s ∈ cfg.failureStrings, goContains body s = true
        · rw [if_pos (List.any_eq_true.2 h4), if_pos h4]
        · rw [if_neg (fun hh => h4 (List.any_eq_true.1 hh)), if_neg h4]

/-- C10 (confirmed): `updateStats` recomputes the CPM only under the
`elapsed > 0` guard — at zero elapsed time the CPM is untouched, and at
positive elapsed time it equals the processed total divided by the
elapsed minutes. -/
theorem c10_updateStats_cpm (s : CheckerStats) (status : BotStatus) (e : ℚ) :
    (e = 0 → (updateStats s status e).currentCPM = s.currentCPM)
    ∧ (0 < e → (updateStats s status e).currentCPM =
        (((updateStats s status e).validCombos + (updateStats s status e).invalidCombos
          + (updateStats s status e).errorCombos : ℕ) : ℚ) / e) := by
  constructor
  · intro h
    subst h
    cases status <;> simp [updateStats]
  · intro h
    cases status <;> simp [updateStats, h]

/-- Witness for C10 at concrete inputs. -/
theorem c10_updateStats_cpm_witness :
    (updateStats ⟨1, 2, 3, 9⟩ BotStatus.success 0).currentCPM
        = (⟨1, 2, 3, 9⟩ : CheckerStats).currentCPM
    ∧ (updateStats ⟨1, 2, 3, 9⟩ BotStatus.success 2).currentCPM =
        (((updateStats ⟨1, 2, 3, 9⟩ BotStatus.success 2).validCombos
          + (updateStats ⟨1, 2, 3, 9⟩ BotStatus.success 2).invalidCombos
          + (updateStats ⟨1, 2, 3, 9⟩ BotStatus.success 2).errorCombos : ℕ) : ℚ) / 2 :=
  ⟨(c10_updateStats_cpm ⟨1, 2, 3, 9⟩ BotStatus.success 0).1 rfl,
   (c10_updateStats_cpm ⟨1, 2, 3, 9⟩ BotStatus.success 2).2 (by norm_num)⟩

/-- C6 counterexample: with `request_timeout_ms = 0` the fallback
standard HTTP client is created with `Timeout = 0`, which is no
client-level deadline at all — not the 30 000 ms default the claim
states. -/
theorem c6_counterexample :
    fallbackClientDeadline (clampRequestTimeout 0) = none
    ∧ fallbackClientDeadline (clampRequestTimeout 0) ≠ some 30000 := by
  decide

/-- C6 (corrected): with `request_timeout_ms = 0` the primary azuretls
transport does use the 30 000 ms default, but the fallback standard
client gets `Timeout = 0`, i.e. no client-level deadline; the 30 s cap
on the configured timeout holds for every value. -/
theorem c6_timeout_zero :
    azureSessionTimeout (clampRequestTimeout 0) = 30000
    ∧ fallbackClientDeadline (clampRequestTimeout 0) = none
    ∧ ∀ t, clampRequestTimeout t ≤ 30000 := by
  refine ⟨by decide, by decide, fun t => ?_⟩
  unfold clampRequestTimeout
  split <;> omega

/-- Helper: the retry loop never emits a proxy-registry report. -/
theorem comboTraceAux_no_registryReport (b a : Nat → Bool) :
    ∀ (fuel rc : Nat), Event.registryReport ∉ comboTraceAux b a rc fuel := by
  intro fuel
  induction fuel with
  | zero => intro rc; simp [comboTraceAux]
  | succ f ih =>
    intro rc
    simp only [comboTraceAux]
    split
    · split
      · simp
      · cases f with
        | zero => simp
        | succ f2 => simp [ih (rc + 1)]
    · simp

/-- Helper: the effective retry limit is always positive. -/
theorem effectiveRetryLimit_pos (rc : Nat) : 0 < effectiveRetryLimit rc := by
  unfold effectiveRetryLimit
  split
  · omega
  · simp_all
    omega

/-- C2 counterexample: with `retry_count = 0` a run whose transport
attempts all fail performs 3 attempts, not exactly 1 — the code rewrites
a zero retry count to 3. -/
theorem c2_counterexample :
    attemptCount (comboTrace (fun _ => true) (fun _ => false) 0) ≠ 1 := by
  decide

/-- C2 (corrected): `retry_count = 0` is rewritten to an effective limit
of 3, so a task whose requests build performs at most 3 transport
attempts — exactly 1 only when the first attempt succeeds, and 3 when
every attempt fails. -/
theorem c2_retry_zero_attempts (a : Nat → Bool) :
    attemptCount (comboTrace (fun _ => true) a 0) ≤ 3
    ∧ (a 0 = true → attemptCount (comboTrace (fun _ => true) a 0) = 1)
    ∧ ((∀ i, a i = false) → attemptCount (comboTrace (fun _ => true) a 0) = 3) := by
  refine ⟨?_, fun h0 => ?_, fun h => ?_⟩
  · rcases h0 : a 0 <;> rcases h1 : a 1 <;> rcases h2 : a 2 <;>
      simp [comboTrace, effectiveRetryLimit, comboTraceAux, attemptCount, h0, h1, h2,
        List.countP_cons]
  · simp [comboTrace, effectiveRetryLimit, comboTraceAux, attemptCount, h0, List.countP_cons]
  · simp [comboTrace, effectiveRetryLimit, comboTraceAux, attemptCount, h 0, h 1, h 2,
      List.countP_cons]

/-- Witness for C2 at a run whose first attempt succeeds. -/
theorem c2_retry_zero_attempts_witness :
    attemptCount (comboTrace (fun _ => true) (fun _ => true) 0) = 1 :=
  (c2_retry_zero_attempts (fun _ => true)).2.1 rfl

/-- C3 counterexample: a run of the pipeline (first attempt succeeds,
config retry count 3) emits no proxy-registry report at all — the worker
never reports attempt outcomes to the registry. -/
theorem c3_counterexample :
    Event.registryReport ∉ comboTrace (fun _ => true) (fun _ => true) 3 := by
  decide

/-- C3 (corrected): no attempt outcome is ever reported to the proxy
registry; the per-attempt outcome goes to the structured logger instead —
a network-request error log on transport error and a detailed response
plus network-request success log on transport success. -/
theorem c3_no_registry_reports (b a : Nat → Bool) (rc : Nat) :
    Event.registryReport ∉ comboTrace b a rc
    ∧ (b 0 = true → a 0 = true → Event.logNetworkRequestSuccess ∈ comboTrace b a rc)
    ∧ (b 0 = true → a 0 = false → Event.logNetworkRequestError 1 ∈ comboTrace b a rc) := by
  obtain ⟨m, hm⟩ : ∃ m, effectiveRetryLimit rc = m + 1 :=
    ⟨effectiveRetryLimit rc - 1, by have := effectiveRetryLimit_pos rc; omega⟩
  refine ⟨comboTraceAux_no_registryReport b a _ _, fun hb ha => ?_, fun hb ha => ?_⟩
  · unfold comboTrace
    rw [hm]
    simp [comboTraceAux, hb, ha]
  · unfold comboTrace
    rw [hm]
    simp [comboTraceAux, hb, ha]

/-- Witness for C3: transport success on the first attempt is logged. -/
theorem c3_no_registry_reports_witness :
    Event.logNetworkRequestSuccess ∈ comboTrace (fun _ => true) (fun _ => true) 1 :=
  (c3_no_registry_reports (fun _ => true) (fun _ => true) 1).2.1 rfl rfl

/-- Helper: every backoff sleep in a trace is `500 ms × k` for some
attempt number `k` strictly between the starting retry count and the
retry limit. -/
theorem sleeps_linear (b a : Nat → Bool) :
    ∀ (fuel rc ms : Nat), ms ∈ sleepsOf (comboTraceAux b a rc fuel) →
      ∃ k, rc < k ∧ k < rc + fuel ∧ ms = 500 * k := by
  intro fuel
  induction fuel with
  | zero =>
    intro rc ms h
    simp [comboTraceAux, sleepsOf] at h
  | succ f ih =>
    intro rc ms h
    simp only [comboTraceAux] at h
    split at h
    · split at h
      · simp [sleepsOf] at h
      · cases f with
        | zero => simp [sleepsOf] at h
        | succ f2 =>
          simp only [sleepsOf, List.filterMap_cons] at h
          simp at h
          rcases h with h | h
          · exact ⟨rc + 1, by omega, by omega, h⟩
          · obtain ⟨k, h1, h2, h3⟩ := ih (rc + 1) ms (by simpa [sleepsOf] using h)
            exact ⟨k, by omega, by omega, h3⟩
    · simp [sleepsOf] at h

/-- Helper: exact backoff schedule of an all-failing run: sleeps are
`500·(rc+1), 500·(rc+2), …` up to the retry limit. -/
theorem sleeps_schedule :
    ∀ (fuel rc : Nat), sleepsOf (comboTraceAux (fun _ => true) (fun _ => false) rc fuel)
      = (List.range (fuel - 1)).map (fun i => 500 * (rc + 1 + i)) := by
  intro fuel
  induction fuel with
  | zero => intro rc; simp [comboTraceAux, sleepsOf]
  | succ f ih =>
    intro rc
    cases f with
    | zero => simp [comboTraceAux, sleepsOf]
    | succ f2 =>
      have ihr := ih (rc + 1)
      rw [show comboTraceAux (fun _ => true) (fun _ => false) rc (f2 + 1 + 1)
            = Event.logDetailedRequest (rc + 1) :: Event.clientDo (rc + 1) ::
              Event.logNetworkRequestError (rc + 1) ::
              Event.logRetryWarn (rc + 1) :: Event.sleepMs (500 * (rc + 1)) ::
              comboTraceAux (fun _ => true) (fun _ => false) (rc + 1) (f2 + 1) from rfl]
      simp only [sleepsOf] at ihr ⊢
      simp only [List.filterMap_cons]
      rw [ihr]
      rw [show f2 + 1 + 1 - 1 = f2 + 1 from rfl, List.range_succ_eq_map]
      simp only [List.map_cons, List.map_map]
      congr 1
      refine List.map_congr_left fun i _ => ?_
      simp [Function.comp]
      omega

/-- C5 counterexample: with a configured retry count of 20 an
all-failing run sleeps 5 500 ms after the 11th failed attempt — the
backoff has no 5 s cap. -/
theorem c5_counterexample :
    Event.sleepMs 5500 ∈ comboTrace (fun _ => true) (fun _ => false) 20 ∧ 5000 < 5500 := by
  decide

/-- C5 (corrected): between consecutive transport attempts the worker
sleeps `500 ms × attempt_number` (linear backoff) with no upper cap:
every sleep is `500·k` for an attempt number `1 ≤ k < retry limit`, and
an all-failing run sleeps exactly `500·1, 500·2, …` in order. -/
theorem c5_backoff_linear_uncapped (b a : Nat → Bool) (rcCfg ms : Nat) :
    (ms ∈ sleepsOf (comboTrace b a rcCfg) →
      ∃ k, 1 ≤ k ∧ k < effectiveRetryLimit rcCfg ∧ ms = 500 * k)
    ∧ sleepsOf (comboTrace (fun _ => true) (fun _ => false) rcCfg)
      = (List.range (effectiveRetryLimit rcCfg - 1)).map (fun i => 500 * (1 + i)) := by
  constructor
  · intro h
    obtain ⟨k, h1, h2, h3⟩ := sleeps_linear b a (effectiveRetryLimit rcCfg) 0 ms h
    exact ⟨k, by omega, by omega, h3⟩
  · unfold comboTrace
    rw [sleeps_schedule (effectiveRetryLimit rcCfg) 0]

/-- Witness for C5: the 500 ms sleep of a retry-count-0 run is linear
backoff at attempt number 1. -/
theorem c5_backoff_linear_uncapped_witness :
    ∃ k, 1 ≤ k ∧ k < effectiveRetryLimit 0 ∧ 500 = 500 * k :=
  (c5_backoff_linear_uncapped (fun _ => true) (fun _ => false) 0 500).1 (by decide)

/-- Helper: shifting the filtered pick stream by one call. -/
theorem pickFilter_shift (picks : Nat → Option Proxy) (c : Nat) :
    pickFilter picks c ∘ Nat.succ = pickFilter picks (c + 1) := by
  funext i
  simp only [pickFilter, Function.comp]
  rw [show c + Nat.succ i = c + 1 + i by omega]

/-- Helper: `getNextHealthyProxyAux` returns the first working proxy
among the next `fuel` picks, and otherwise the pick right after them,
unconditionally. -/
theorem getNextHealthyProxyAux_characterization (picks : Nat → Option Proxy) :
    ∀ (fuel c : Nat), getNextHealthyProxyAux picks c fuel
      = Option.orElse ((List.range fuel).findSome? (pickFilter picks c))
          (fun _ => picks (c + fuel)) := by
  intro fuel
  induction fuel with
  | zero =>
    intro c
    simp [getNextHealthyProxyAux, Option.orElse]
  | succ f ih =>
    intro c
    rcases hp : picks c with _ | p
    · rw [show getNextHealthyProxyAux picks c (f + 1) = getNextHealthyProxyAux picks (c + 1) f
          from by simp [getNextHealthyProxyAux, hp]]
      rw [ih (c + 1), List.range_succ_eq_map, List.findSome?_cons, List.findSome?_map,
        pickFilter_shift, show c + (f + 1) = c + 1 + f by omega]
      have h0 : pickFilter picks c 0 = none := by simp [pickFilter, hp]
      rw [h0]
    · rcases hw : p.working with _ | _
      · rw [show getNextHealthyProxyAux picks c (f + 1) = getNextHealthyProxyAux picks (c + 1) f
            from by simp [getNextHealthyProxyAux, hp, hw]]
        rw [ih (c + 1), List.range_succ_eq_map, List.findSome?_cons, List.findSome?_map,
          pickFilter_shift, show c + (f + 1) = c + 1 + f by omega]
        have h0 : pickFilter picks c 0 = none := by simp [pickFilter, hp, hw]
        rw [h0]
      · rw [show getNextHealthyProxyAux picks c (f + 1) = some p
            from by simp [getNextHealthyProxyAux, hp, hw]]
        rw [List.range_succ_eq_map, List.findSome?_cons]
        have h0 : pickFilter picks c 0 = some p := by simp [pickFilter, hp, hw]
        rw [h0]
        rfl

/-- C4 counterexample: a required-proxy task is enqueued carrying a
non-working proxy — the proxy list holds a working proxy (so the skip
check passes), every pick from the manager returns the non-working one,
and after 5 failed retries `getNextHealthyProxy` attaches it anyway. -/
theorem c4_counterexample :
    createTask [proxyUp, proxyDown] (fun _ => some proxyDown) sampleCombo cfgNeedsProxy
      = some ⟨sampleCombo, cfgNeedsProxy, some proxyDown⟩
    ∧ proxyDown.working = false := by
  decide

/-- C4 (corrected): the pick is retried up to 5 times looking for a
working proxy, but when none of those 5 picks is working a 6th pick is
attached regardless of its working flag; an enqueued required-proxy task
is only guaranteed a non-nil proxy, not a working one. -/
theorem c4_required_proxy_pick :
    (∀ picks, getNextHealthyProxy picks
      = Option.orElse (firstWorkingPick picks) (fun _ => picks 5))
    ∧ (∀ (proxies : List Proxy) (picks : Nat → Option Proxy) (combo : Combo) (cfg : Config)
        (t : WorkerTask), createTask proxies picks combo cfg = some t →
          cfg.requiresProxy = true →
          t.proxy = getNextHealthyProxy picks ∧ t.proxy ≠ none) := by
  constructor
  · intro picks
    rw [getNextHealthyProxy, getNextHealthyProxyAux_characterization picks 5 0]
    have h0 : pickFilter picks 0 = fun i =>
        match picks i with
        | some p => if p.working then some p else none
        | none => none := by
      funext i
      simp [pickFilter]
    rw [h0]
    rfl
  · intro proxies picks combo cfg t ht hreq
    simp only [createTask] at ht
    split at ht
    · exact absurd ht (by simp)
    · split at ht
      · exact absurd ht (by simp)
      · rename_i hcond
        rw [Bool.not_eq_true, Bool.and_eq_false_iff] at hcond
        rcases hcond with hcond | hcond
        · exact absurd hreq (by simp [hcond])
        · have hsel : selectProxyForConfig cfg picks = getNextHealthyProxy picks := by
            simp [selectProxyForConfig, hreq]
          cases ht
          refine ⟨hsel, ?_⟩
          simp_all [Option.isNone_eq_false_iff]
          exact Option.isSome_iff_ne_none.mp hcond

/-- Witness for C4 at the concrete non-working-proxy scenario. -/
theorem c4_required_proxy_pick_witness :
    (⟨sampleCombo, cfgNeedsProxy, some proxyDown⟩ : WorkerTask).proxy
        = getNextHealthyProxy (fun _ => some proxyDown)
    ∧ (⟨sampleCombo, cfgNeedsProxy, some proxyDown⟩ : WorkerTask).proxy ≠ none :=
  c4_required_proxy_pick.2 [proxyUp, proxyDown] (fun _ => some proxyDown) sampleCombo
    cfgNeedsProxy ⟨sampleCombo, cfgNeedsProxy, some proxyDown⟩ (by decide) (by decide)

/-- Helper: folding `Set` over headers whose keys all differ from `k`
leaves the map unchanged at `k`. -/
theorem foldl_setHeader_not_mem (subst : String → String) (k : String) :
    ∀ (hs : List (String × String)) (h0 : String → Option String),
      (∀ kv ∈ hs, kv.1 ≠ k) →
      (hs.foldl (fun m kv => setHeader m kv.1 (subst kv.2)) h0) k = h0 k := by
  intro hs
  induction hs with
  | nil => intro h0 _; rfl
  | cons x t ih =>
    intro h0 hx
    simp only [List.foldl_cons]
    rw [ih _ (fun kv hkv => hx kv (List.mem_cons_of_mem x hkv))]
    have hne : k ≠ x.1 := fun h => hx x (List.mem_cons_self x t) h.symm
    simp [setHeader, hne]

/-- C7 counterexample: a `PUT` request with no configured `Content-Type`
carries no `Content-Type` header at all, and a `POST` request that
explicitly configures `Content-Type: application/json` has it
overwritten with the form encoding. -/
theorem c7_counterexample :
    buildRequestHeaders cfgPut (fun s => s) "Content-Type" = none
    ∧ buildRequestHeaders cfgPostJson (fun s => s) "Content-Type"
        = some "application/x-www-form-urlencoded"
    ∧ cfgPostJson.headers = [("Content-Type", "application/json")] := by
  decide

/-- C7 (corrected): only `POST` requests get
`Content-Type: application/x-www-form-urlencoded`, and they get it
unconditionally, overwriting any configured value; other methods (such
as `PUT`/`PATCH`) without a configured `Content-Type` carry none; every
non-`GET` method gets the urlencoded `body_fields` as its body. -/
theorem c7_post_content_type (cfg : Config) (subst : String → String) :
    (cfg.method = "POST" →
      buildRequestHeaders cfg subst "Content-Type" = some "application/x-www-form-urlencoded")
    ∧ (cfg.method ≠ "POST" → (∀ kv ∈ cfg.headers, kv.1 ≠ "Content-Type") →
        buildRequestHeaders cfg subst "Content-Type" = none)
    ∧ (cfg.method ≠ "GET" → buildRequestBody cfg subst = some (buildFormData cfg.data subst)) := by
  refine ⟨fun hm => ?_, fun hm hn => ?_, fun hm => ?_⟩
  · simp [buildRequestHeaders, hm, setHeader]
  · have hb : (cfg.method == "POST") = false := by simp [hm]
    simp only [buildRequestHeaders, hb, Bool.false_eq_true, if_false]
    exact foldl_setHeader_not_mem subst "Content-Type" cfg.headers emptyHeaders hn
  · have hb : (cfg.method == "GET") = false := by simp [hm]
    simp [buildRequestBody, hb]

/-- Witness for C7 at the concrete `POST`/`PUT` configs. -/
theorem c7_post_content_type_witness :
    buildRequestHeaders cfgPostJson (fun s => s) "Content-Type"
        = some "application/x-www-form-urlencoded"
    ∧ buildRequestHeaders cfgPut (fun s => s) "Content-Type" = none
    ∧ buildRequestBody cfgPut (fun s => s) = some (buildFormData cfgPut.data (fun s => s)) :=
  ⟨(c7_post_content_type cfgPostJson (fun s => s)).1 rfl,
   (c7_post_content_type cfgPut (fun s => s)).2.1 (by decide) (by decide),
   (c7_post_content_type cfgPut (fun s => s)).2.2 (by decide)⟩

/-- C8 counterexample: the substitution state is shared, not fresh per
attempt — with a `TOKEN` variable left in the shared store by an earlier
attempt, a later attempt's substitution of `a={TOKEN}` yields `a=x`,
whereas a fresh store prefilled only by the combo fields would leave the
placeholder intact. -/
theorem c8_counterexample :
    (replaceVariables tokenStore "a={TOKEN}" sampleCombo).2 = "a=x"
    ∧ (replaceVariables freshStore "a={TOKEN}" sampleCombo).2 = "a={TOKEN}"
    ∧ ("a=x" : String) ≠ "a={TOKEN}" := by
  decide

/-- C8 (corrected): every substitution runs against the single
checker-wide shared store: each `replaceVariables` call overwrites the
six combo keys, every other key keeps whatever value earlier attempts
left there (and that state is what substitution sees). -/
theorem c8_shared_store (store : String → Option String) (combo : Combo) (text : String) :
    ((replaceVariables store text combo).1 "USER" = some combo.username)
    ∧ ((replaceVariables store text combo).1 "PASS" = some combo.password)
    ∧ ((replaceVariables store text combo).1 "EMAIL" = some combo.email)
    ∧ ((replaceVariables store text combo).1 "username" = some combo.username)
    ∧ ((replaceVariables store text combo).1 "password" = some combo.password)
    ∧ ((replaceVariables store text combo).1 "email" = some combo.email)
    ∧ (∀ k, k ≠ "USER" → k ≠ "PASS" → k ≠ "EMAIL" → k ≠ "username" → k ≠ "password" →
        k ≠ "email" → (replaceVariables store text combo).1 k = store k)
    ∧ ((replaceVariables store text combo).2
        = substituteTemplate ((replaceVariables store text combo).1) text) :=
  ⟨by simp [replaceVariables, setVariable],
   by simp [replaceVariables, setVariable],
   by simp [replaceVariables, setVariable],
   by simp [replaceVariables, setVariable],
   by simp [replaceVariables, setVariable],
   by simp [replaceVariables, setVariable],
   fun k h1 h2 h3 h4 h5 h6 => by simp [replaceVariables, setVariable, h1, h2, h3, h4, h5, h6],
   rfl⟩

/-- Witness for C8: the `TOKEN` value survives a later attempt's
substitution call. -/
theorem c8_shared_store_witness :
    (replaceVariables tokenStore "a={TOKEN}" sampleCombo).1 "TOKEN" = some "x" := by
  have h := (c8_shared_store tokenStore sampleCombo "a={TOKEN}").2.2.2.2.2.2.1 "TOKEN"
    (by decide) (by decide) (by decide) (by decide) (by decide) (by decide)
  rw [h]
  decide

/-- C9 counterexample: a line whose port field is not an integer is not
skipped — it yields a proxy with port `0`; a line with an unknown scheme
is not skipped either — the scheme defaults to `http`. -/
theorem c9_counterexample :
    parseProxy "proxy.example.com:notaport"
      = some { host := "proxy.example.com", port := 0, type := .http, working := false }
    ∧ parseProxy "h:80:ftp"
      = some { host := "h", port := 80, type := .http, working := false } := by
  decide

/-- C9 (corrected): only lines with fewer than two `:`-separated fields
are skipped; every other line yields a proxy whose port is `parseInt` of
field 1 (`0` when not an integer), whose scheme comes from the optional
third field (defaulting to `http` for absent or unrecognised schemes),
and whose `Working` flag starts `false`. -/
theorem c9_parseProxy_skip_iff (line : String) :
    (parseProxy line = none ↔ (goSplitColon line).length < 2)
    ∧ (∀ p, parseProxy line = some p →
        p.host = (goSplitColon line).headD ""
        ∧ p.port = parseInt ((goSplitColon line).getD 1 "")
        ∧ p.type = proxySchemeOf ((goSplitColon line).drop 2)
        ∧ p.working = false) := by
  rcases h : goSplitColon line with _ | ⟨a, _ | ⟨b, rest⟩⟩ <;>
    simp [parseProxy, h]

/-- Witness for C9 at the non-integer-port line. -/
theorem c9_parseProxy_skip_iff_witness :
    proxyNotAPort.host = (goSplitColon "proxy.example.com:notaport").headD ""
    ∧ proxyNotAPort.port = parseInt ((goSplitColon "proxy.example.com:notaport").getD 1 "")
    ∧ proxyNotAPort.type = proxySchemeOf ((goSplitColon "proxy.example.com:notaport").drop 2)
    ∧ proxyNotAPort.working = false :=
  (c9_parseProxy_skip_iff "proxy.example.com:notaport").2 proxyNotAPort (by decide)

end Stuffer
